import Mathlib

/-
Verification of the urban-technologies-berlin surface-water simulator.

The development shallowly embeds the simulator's core functions
(`notebooks/1.0-modelling.py` and `src/urban_technologies_berlin/model.py`):
grid layout conversions, the hydrology primitives, the flow-fraction
computation, the grid update (advection step) and the simulation loop.
Scalars are modelled exactly: rationals (or an arbitrary linear ordered
field) where the Python code uses only field and order operations, and real
numbers where the code needs `sqrt`/`cbrt`.  numpy arrays over a square grid
are modelled as functions `Fin t → Fin t → α`; flat ndarrays (for the
list/matrix conversions) as a shape together with row-major flat data.
-/

namespace UrbanWater

section Primitives

variable {α : Type*} [LinearOrderedField α]

/-- Embedding of `np.sign`: `-1`, `0` or `1` according to the sign of `x`. -/
def sgn (x : α) : α := if x < 0 then -1 else if 0 < x then 1 else 0

/-- Embedding of `R` (water depth): `water_in_liter / (tile_square_meter * 1000)`. -/
def R (water_in_liter tile_square_meter : α) : α :=
  water_in_liter / (tile_square_meter * 1000)

/-- Embedding of `water_infiltration` for one cell: the remaining water level
`water_level * (1 - (-26/96 * sealing + 34) / 100)` (the source applies this
formula elementwise to column 0 with sealing from column 3). -/
def waterInfiltration (water_level sealing : α) : α :=
  water_level * (1 - (-26 / 96 * sealing + 34) / 100)

/-- Embedding of `water_flow_distance` for one velocity component:
`velocity * (timestep * 60)` (timestep in minutes, converted to seconds). -/
def waterFlowDistance (velocity timestep : α) : α := velocity * (timestep * 60)

/-- The denominator `sum_distances` used by `water_flow`:
`np.maximum(np.sum(np.absolute(distances), axis=1), tile_size)` for one cell. -/
def sumDistances (dx dy tile_size : α) : α := max (|dx| + |dy|) tile_size

/-- Embedding of `water_flow` for one cell: signed per-axis flow fractions
`(|d| / sum_distances) * np.sign(d)` for each axis. -/
def waterFlow (dx dy tile_size : α) : α × α :=
  (|dx| / sumDistances dx dy tile_size * sgn dx,
   |dy| / sumDistances dx dy tile_size * sgn dy)

end Primitives

section GridUpdate

variable {α : Type*} [LinearOrderedField α] {t : ℕ}

/-- Embedding of `np.roll(data, 1, 1)` followed by `right_shifted[:, 0, :] = 0`:
cell `(i, j)` reads `(i, j-1)`, and the wrapped column 0 is zeroed. -/
def rightShifted (d : Fin t → Fin t → α) : Fin t → Fin t → α :=
  fun i j =>
    if j.1 = 0 then 0 else d i ⟨j.1 - 1, Nat.lt_of_le_of_lt (Nat.sub_le j.1 1) j.isLt⟩

/-- Embedding of `np.roll(data, -1, 1)` followed by `left_shifted[:, -1, :] = 0`:
cell `(i, j)` reads `(i, j+1)`, and the wrapped last column is zeroed. -/
def leftShifted (d : Fin t → Fin t → α) : Fin t → Fin t → α :=
  fun i j => if h : j.1 + 1 < t then d i ⟨j.1 + 1, h⟩ else 0

/-- Embedding of `np.roll(data, -1, 0)` followed by `up_shifted[-1, :, :] = 0`:
cell `(i, j)` reads `(i+1, j)`, and the wrapped last row is zeroed. -/
def upShifted (d : Fin t → Fin t → α) : Fin t → Fin t → α :=
  fun i j => if h : i.1 + 1 < t then d ⟨i.1 + 1, h⟩ j else 0

/-- Embedding of `np.roll(data, 1, 0)` followed by `down_shifted[0, :, :] = 0`:
cell `(i, j)` reads `(i-1, j)`, and the wrapped row 0 is zeroed. -/
def downShifted (d : Fin t → Fin t → α) : Fin t → Fin t → α :=
  fun i j =>
    if i.1 = 0 then 0 else d ⟨i.1 - 1, Nat.lt_of_le_of_lt (Nat.sub_le i.1 1) i.isLt⟩ j

/-- Embedding of `water_flow_from_right`:
`np.absolute(np.minimum(left_shifted[:, :, flow], 0) * left_shifted[:, :, wl])`.
`flow` is whatever flow column the caller passes (the source passes
`water_flow_x_index`). -/
def waterFlowFromRight (wl flow : Fin t → Fin t → α) : Fin t → Fin t → α :=
  fun i j => |min (leftShifted flow i j) 0 * leftShifted wl i j|

/-- Embedding of `water_flow_from_left`:
`np.absolute(np.maximum(right_shifted[:, :, flow], 0) * right_shifted[:, :, wl])`. -/
def waterFlowFromLeft (wl flow : Fin t → Fin t → α) : Fin t → Fin t → α :=
  fun i j => |max (rightShifted flow i j) 0 * rightShifted wl i j|

/-- Embedding of `water_flow_from_above`:
`np.absolute(np.minimum(down_shifted[:, :, flow], 0) * down_shifted[:, :, wl])`. -/
def waterFlowFromAbove (wl flow : Fin t → Fin t → α) : Fin t → Fin t → α :=
  fun i j => |min (downShifted flow i j) 0 * downShifted wl i j|

/-- Embedding of `water_flow_from_below`:
`np.absolute(np.maximum(up_shifted[:, :, flow], 0) * up_shifted[:, :, wl])`. -/
def waterFlowFromBelow (wl flow : Fin t → Fin t → α) : Fin t → Fin t → α :=
  fun i j => |max (upShifted flow i j) 0 * upShifted wl i j|

/-- Embedding of `updated_water_level` on matrix-form data.  `wl`, `fx`, `fy`
are the `water_level_index = 0`, `water_flow_x_index = 4`,
`water_flow_y_index = 5` slices of the concatenated matrix.  Note that the
source passes `water_flow_x_index` to all four directional terms, including
`water_flow_from_above` (line 339) and `water_flow_from_below` (line 342);
`fy` enters only the retained-water term. -/
def updatedWaterLevel (wl fx fy : Fin t → Fin t → α) : Fin t → Fin t → α :=
  fun i j =>
    waterFlowFromRight wl fx i j + waterFlowFromLeft wl fx i j
      + waterFlowFromAbove wl fx i j + waterFlowFromBelow wl fx i j
      + wl i j * (1 - (|fx i j| + |fy i j|))

/-- Sum of all water levels of a grid. -/
def totalWater (wl : Fin t → Fin t → α) : α := ∑ i, ∑ j, wl i j

end GridUpdate

section Velocity

/-- Embedding of `np.cbrt`: the real cube root, as magnitude-root times sign. -/
noncomputable def cbrt (x : ℝ) : ℝ := sgn x * |x| ^ ((1 : ℝ) / 3)

/-- Embedding of `water_flow_velocity` for one cell and one axis:
`np.sign(g) * (kst * np.cbrt(R(wl, tsm) ** 2) * np.sqrt(np.absolute(g)))`
(the source applies this formula elementwise to both gradient columns). -/
noncomputable def waterFlowVelocity (water_in_liter tile_square_meter gradient kst : ℝ) : ℝ :=
  sgn gradient * (kst * cbrt (R water_in_liter tile_square_meter ^ 2) * Real.sqrt |gradient|)

/-- Per-cell flow-fraction pipeline of the `simulate` loop body (lines 398-400):
velocity on each axis, then distance for the timestep, then `water_flow`.
`tile_square_meter = tile_size ** 2` as in `simulate`. -/
noncomputable def cellFlow (wl gx gy tile_size timestep kst : ℝ) : ℝ × ℝ :=
  waterFlow (waterFlowDistance (waterFlowVelocity wl (tile_size ^ 2) gx kst) timestep)
            (waterFlowDistance (waterFlowVelocity wl (tile_size ^ 2) gy kst) timestep)
            tile_size

/-- One iteration of the `simulate` loop on a matrix-form grid: add rainfall
(`+= rainfall * tile_square_meter`), infiltrate, compute per-cell flow
fractions, then apply `updated_water_level`.  The list/matrix reshaping of the
source is the lossless layout conversion proved in `list2matrix_matrix2list`
below, so the state is kept in matrix form throughout. -/
noncomputable def simulationStep (t : ℕ) (rainfall timestep tile_size kst : ℝ)
    (wl gx gy sealing : Fin t → Fin t → ℝ) : Fin t → Fin t → ℝ :=
  updatedWaterLevel
    (fun i j => waterInfiltration (wl i j + rainfall * tile_size ^ 2) (sealing i j))
    (fun i j =>
      (cellFlow (waterInfiltration (wl i j + rainfall * tile_size ^ 2) (sealing i j))
        (gx i j) (gy i j) tile_size timestep kst).1)
    (fun i j =>
      (cellFlow (waterInfiltration (wl i j + rainfall * tile_size ^ 2) (sealing i j))
        (gx i j) (gy i j) tile_size timestep kst).2)

/-- The `for index in range(iterations)` loop of `simulate`: each iteration
advances the working water-level grid by one `simulationStep` and appends the
resulting snapshot (`water_levels.append(new_water_level)`). -/
noncomputable def runSimulation (t : ℕ) (rainfall timestep tile_size kst : ℝ)
    (gx gy sealing : Fin t → Fin t → ℝ) :
    ℕ → (Fin t → Fin t → ℝ) → List (Fin t → Fin t → ℝ)
  | 0, _ => []
  | n + 1, wl =>
    simulationStep t rainfall timestep tile_size kst wl gx gy sealing ::
      runSimulation t rainfall timestep tile_size kst gx gy sealing n
        (simulationStep t rainfall timestep tile_size kst wl gx gy sealing)

/-- Embedding of `simulate`: the water level starts at 0 everywhere
(`init_and_get_list_form`) and the loop runs for `iterations` steps, emitting
one water-level snapshot per iteration.  `tile_size` is a parameter here; in
the source it is produced by `get_tile_size` from the grid geometry. -/
noncomputable def simulate (t : ℕ) (rainfall timestep tile_size kst : ℝ)
    (gx gy sealing : Fin t → Fin t → ℝ) (iterations : ℕ) :
    List (Fin t → Fin t → ℝ) :=
  runSimulation t rainfall timestep tile_size kst gx gy sealing iterations fun _ _ => 0

end Velocity

section NDArrayModel

/-- A numpy ndarray modelled as its shape together with its row-major flat
data (as a total function on flat indices). -/
@[ext]
structure NDArray (α : Type*) where
  shape : List ℕ
  data : ℕ → α

variable {α : Type*}

/-- Column `k` of a 2-dimensional array of shape `[n, c]` in row-major layout:
`data[:, k][r] = data[r * c + k]`. -/
def column (a : NDArray α) (c k : ℕ) : ℕ → α := fun r => a.data (r * c + k)

/-- Row-major flat data of `np.stack(dims, axis=last)` for `c` slices: flat
position `p` holds element `p / c` of slice `p % c`.  Stacking `c` vectors of
length `n` along `axis=1`, or `c` matrices of shape `t × t` along `axis=2`,
both have this flat layout. -/
def stackLast (c : ℕ) (slices : ℕ → ℕ → α) : ℕ → α := fun p => slices (p % c) (p / c)

/-- Embedding of `list2matrix`: requires 2-dimensional shape `[n, c]`
(else `ValueError: Not in 'list' form!`); reshapes each column to
`(Nat.sqrt n, Nat.sqrt n)` — which raises a numpy `ValueError` unless
`n = Nat.sqrt n * Nat.sqrt n`, i.e. unless `n` is a perfect square — and
stacks the columns along `axis=2`.  A row-major reshape leaves flat data
unchanged, so the result is the stacked columns with shape `[t, t, c]`. -/
def list2matrix (a : NDArray α) : Except String (NDArray α) :=
  match a.shape with
  | [n, c] =>
    if Nat.sqrt n * Nat.sqrt n = n then
      Except.ok ⟨[Nat.sqrt n, Nat.sqrt n, c], stackLast c (column a c)⟩
    else Except.error "cannot reshape column into square matrix"
  | _ => Except.error "Not in list form!"

/-- Embedding of `matrix2list`: requires 3-dimensional shape `[p, q, c]`
(else `ValueError: Not in 'matrix' form!`); flattens each attribute slice
`data[:, :, k]` (row-major flat position `r` of the flattened slice is flat
element `r * c + k` of `a`) and stacks the `c` flat slices along `axis=1`. -/
def matrix2list (a : NDArray α) : Except String (NDArray α) :=
  match a.shape with
  | [p, q, c] =>
    Except.ok ⟨[p * q, c], stackLast c fun k r => a.data (r * c + k)⟩
  | _ => Except.error "Not in matrix form!"

end NDArrayModel

section ConcreteInputs

/-- A 2×2 water-level grid: 1 liter in the top-left cell, 0 elsewhere. -/
def wlC1 : Fin 2 → Fin 2 → ℚ := fun i j => if i = 0 ∧ j = 0 then 1 else 0

/-- Zero x-axis flow fractions on the 2×2 grid. -/
def fxC1 : Fin 2 → Fin 2 → ℚ := fun _ _ => 0

/-- y-axis flow fractions on the 2×2 grid: the top-left cell sends half of its
water along the negative y direction, every other cell has no flow. -/
def fyC1 : Fin 2 → Fin 2 → ℚ := fun i j => if i = 0 ∧ j = 0 then -(1 / 2) else 0

/-- A 3×3 water-level grid: 1 liter in the center cell, 0 elsewhere. -/
def wlC2 : Fin 3 → Fin 3 → ℚ := fun i j => if i = 1 ∧ j = 1 then 1 else 0

/-- x-axis flow fractions on the 3×3 grid: the center (interior) cell sends
half of its water along the positive x direction; every boundary cell has
zero flow. -/
def fxC2 : Fin 3 → Fin 3 → ℚ := fun i j => if i = 1 ∧ j = 1 then 1 / 2 else 0

/-- Zero y-axis flow fractions on the 3×3 grid. -/
def fyC2 : Fin 3 → Fin 3 → ℚ := fun _ _ => 0

/-- A list-form ndarray with 4 rows (a perfect square) and 2 attributes. -/
def listFormExample : NDArray ℚ := ⟨[4, 2], fun p => p⟩

/-- A list-form ndarray with 3 rows — not a perfect square. -/
def listFormNonSquare : NDArray ℚ := ⟨[3, 2], fun p => p⟩

/-- A 1-dimensional ndarray: neither list form nor matrix form. -/
def oneDimExample : NDArray ℚ := ⟨[5], fun p => p⟩

end ConcreteInputs

section Helpers

variable {α : Type*} [LinearOrderedField α]

theorem sgn_of_pos {x : α} (h : 0 < x) : sgn x = 1 := by
  simp [sgn, not_lt_of_gt h, h]

theorem sgn_of_neg {x : α} (h : x < 0) : sgn x = -1 := by
  simp [sgn, h]

theorem sgn_zero : sgn (0 : α) = 0 := by
  simp [sgn]

theorem abs_sgn_le_one (x : α) : |sgn x| ≤ 1 := by
  unfold sgn
  split
  · simp
  · split <;> simp

theorem sumDistances_pos {dx dy tile_size : α} (h : 0 < tile_size) :
    0 < sumDistances dx dy tile_size :=
  lt_of_lt_of_le h (le_max_right _ _)

theorem waterFlow_abs_add_le_one (dx dy tile_size : α) (h : 0 < tile_size) :
    |(waterFlow dx dy tile_size).1| + |(waterFlow dx dy tile_size).2| ≤ 1 := by
  have hs : 0 < sumDistances dx dy tile_size := sumDistances_pos h
  have hx : |(waterFlow dx dy tile_size).1| ≤ |dx| / sumDistances dx dy tile_size := by
    rw [waterFlow, abs_mul, abs_div, abs_abs, abs_of_pos hs]
    calc |dx| / sumDistances dx dy tile_size * |sgn dx|
        ≤ |dx| / sumDistances dx dy tile_size * 1 :=
          mul_le_mul_of_nonneg_left (abs_sgn_le_one dx) (div_nonneg (abs_nonneg dx) hs.le)
      _ = |dx| / sumDistances dx dy tile_size := mul_one _
  have hy : |(waterFlow dx dy tile_size).2| ≤ |dy| / sumDistances dx dy tile_size := by
    rw [waterFlow, abs_mul, abs_div, abs_abs, abs_of_pos hs]
    calc |dy| / sumDistances dx dy tile_size * |sgn dy|
        ≤ |dy| / sumDistances dx dy tile_size * 1 :=
          mul_le_mul_of_nonneg_left (abs_sgn_le_one dy) (div_nonneg (abs_nonneg dy) hs.le)
      _ = |dy| / sumDistances dx dy tile_size := mul_one _
  have hsum : |dx| / sumDistances dx dy tile_size + |dy| / sumDistances dx dy tile_size ≤ 1 := by
    rw [div_add_div_same, div_le_one hs]
    exact le_max_left _ _
  linarith

theorem waterFlow_zero_zero (tile_size : α) : waterFlow (0 : α) 0 tile_size = (0, 0) := by
  simp [waterFlow, sgn]

theorem waterInfiltration_nonneg {water_level sealing : α}
    (hw : 0 ≤ water_level) (hs : 0 ≤ sealing) : 0 ≤ waterInfiltration water_level sealing := by
  unfold waterInfiltration
  have hfac : 0 ≤ 1 - (-26 / 96 * sealing + 34) / 100 := by
    have : -26 / 96 * sealing ≤ 0 := by
      have h1 : (0 : α) ≤ 26 / 96 * sealing := by positivity
      linarith
    linarith
  exact mul_nonneg hw hfac

variable {t : ℕ}

theorem leftShifted_of_zero {d : Fin t → Fin t → α} (h : ∀ i j, d i j = 0)
    (i j : Fin t) : leftShifted d i j = 0 := by
  unfold leftShifted
  split <;> simp [h]

theorem rightShifted_of_zero {d : Fin t → Fin t → α} (h : ∀ i j, d i j = 0)
    (i j : Fin t) : rightShifted d i j = 0 := by
  unfold rightShifted
  split <;> simp [h]

theorem upShifted_of_zero {d : Fin t → Fin t → α} (h : ∀ i j, d i j = 0)
    (i j : Fin t) : upShifted d i j = 0 := by
  unfold upShifted
  split <;> simp [h]

theorem downShifted_of_zero {d : Fin t → Fin t → α} (h : ∀ i j, d i j = 0)
    (i j : Fin t) : downShifted d i j = 0 := by
  unfold downShifted
  split <;> simp [h]

theorem updatedWaterLevel_of_no_flow {wl fx fy : Fin t → Fin t → α}
    (hfx : ∀ i j, fx i j = 0) (hfy : ∀ i j, fy i j = 0) (i j : Fin t) :
    updatedWaterLevel wl fx fy i j = wl i j := by
  simp [updatedWaterLevel, waterFlowFromRight, waterFlowFromLeft, waterFlowFromAbove,
    waterFlowFromBelow, leftShifted_of_zero hfx, rightShifted_of_zero hfx,
    upShifted_of_zero hfx, downShifted_of_zero hfx, hfx, hfy]

theorem updatedWaterLevel_nonneg {wl fx fy : Fin t → Fin t → α}
    (hwl : ∀ i j, 0 ≤ wl i j) (hb : ∀ i j, |fx i j| + |fy i j| ≤ 1) (i j : Fin t) :
    0 ≤ updatedWaterLevel wl fx fy i j := by
  have hretained : 0 ≤ wl i j * (1 - (|fx i j| + |fy i j|)) :=
    mul_nonneg (hwl i j) (by have := hb i j; linarith)
  have h1 : (0 : α) ≤ waterFlowFromRight wl fx i j := abs_nonneg _
  have h2 : (0 : α) ≤ waterFlowFromLeft wl fx i j := abs_nonneg _
  have h3 : (0 : α) ≤ waterFlowFromAbove wl fx i j := abs_nonneg _
  have h4 : (0 : α) ≤ waterFlowFromBelow wl fx i j := abs_nonneg _
  unfold updatedWaterLevel
  linarith

theorem waterFlowVelocity_zero_gradient (wl tsm kst : ℝ) :
    waterFlowVelocity wl tsm 0 kst = 0 := by
  simp [waterFlowVelocity, sgn]

theorem cellFlow_zero_gradients (wl tile_size timestep kst : ℝ) :
    cellFlow wl 0 0 tile_size timestep kst = (0, 0) := by
  simp [cellFlow, waterFlowVelocity_zero_gradient, waterFlowDistance, waterFlow_zero_zero]

end Helpers

section ClaimTheorems

/-- C1: the claim states that the inflow from the above/below neighbors is
computed from the neighbor's y-axis flow component.  The code instead reads
the x-axis flow component (`water_flow_x_index`) for all four directions.  On
a 2×2 grid whose top-left cell holds 1 liter, has zero x-flow and y-flow
fraction `-1/2`, the claimed "from above" inflow into cell `(1, 0)` would be
`|min(0, -1/2)| * 1 = 1/2`, but the code's update leaves cell `(1, 0)` at `0`
and only retains `1/2` in the source cell `(0, 0)`. -/
theorem C1_vertical_inflow_reads_x_component :
    updatedWaterLevel wlC1 fxC1 fyC1 1 0 = 0 ∧
    updatedWaterLevel wlC1 fxC1 fyC1 0 0 = 1 / 2 ∧
    |min (fyC1 0 0) 0 * wlC1 0 0| = 1 / 2 ∧
    fxC1 0 0 = 0 := by
  refine ⟨?_, ?_, ?_, ?_⟩
  · norm_num [updatedWaterLevel, waterFlowFromRight, waterFlowFromLeft, waterFlowFromAbove,
      waterFlowFromBelow, leftShifted, rightShifted, upShifted, downShifted,
      wlC1, fxC1, fyC1, Fin.ext_iff, abs_of_nonneg, abs_of_nonpos]
  · norm_num [updatedWaterLevel, waterFlowFromRight, waterFlowFromLeft, waterFlowFromAbove,
      waterFlowFromBelow, leftShifted, rightShifted, upShifted, downShifted,
      wlC1, fxC1, fyC1, Fin.ext_iff, abs_of_nonneg, abs_of_nonpos]
  · norm_num [wlC1, fyC1]
  · norm_num [fxC1]

/-- C2: the claim states that with all boundary flows zero one grid update
preserves the total water level, and that in general the total never
increases.  On a 3×3 grid whose only flow is an interior x-flow of `1/2` in
the center cell (all boundary cells have zero flow on both axes), the code's
update yields total `3/2` from total `1`: the center cell's outflow is
delivered both to its x-neighbor and — through the x-component being used for
the vertical inflows — to its vertical neighbor, so total water is neither
conserved nor non-increasing. -/
theorem C2_total_water_not_conserved :
    totalWater (updatedWaterLevel wlC2 fxC2 fyC2) = 3 / 2 ∧ totalWater wlC2 = 1 := by
  constructor
  · simp only [totalWater, Fin.sum_univ_three]
    norm_num [updatedWaterLevel, waterFlowFromRight,
      waterFlowFromLeft, waterFlowFromAbove, waterFlowFromBelow, leftShifted, rightShifted,
      upShifted, downShifted, wlC2, fxC2, fyC2, Fin.ext_iff, abs_of_nonneg, abs_of_nonpos]
  · simp only [totalWater, Fin.sum_univ_three]
    norm_num [wlC2, Fin.ext_iff]

/-- C4: the flow-fraction computation divides each axis's absolute flow
distance by `max(|distance_x| + |distance_y|, tile_size)`, so the signed
fractions returned by `water_flow` satisfy `|fraction_x| + |fraction_y| ≤ 1`
for any positive tile size and any flow distances. -/
theorem C4_flow_fraction_bound {α : Type*} [LinearOrderedField α]
    (dx dy tile_size : α) (h : 0 < tile_size) :
    |(waterFlow dx dy tile_size).1| + |(waterFlow dx dy tile_size).2| ≤ 1 :=
  waterFlow_abs_add_le_one dx dy tile_size h

/-- Witness for C4 at `dx = 3`, `dy = -5`, `tile_size = 2`. -/
theorem C4_flow_fraction_bound_witness :
    (0 : ℚ) < 2 ∧ |(waterFlow (3 : ℚ) (-5) 2).1| + |(waterFlow (3 : ℚ) (-5) 2).2| ≤ 1 :=
  ⟨by norm_num, C4_flow_fraction_bound 3 (-5) 2 (by norm_num)⟩

/-- C9: the divisor inside `water_flow` is `sum_distances`, which is at least
`tile_size` and hence strictly positive whenever `tile_size > 0`; in
particular, for zero flow distances `water_flow` returns zero fractions on
both axes rather than an undefined division result. -/
theorem C9_denominator_positive {α : Type*} [LinearOrderedField α]
    (dx dy tile_size : α) (h : 0 < tile_size) :
    tile_size ≤ sumDistances dx dy tile_size ∧
    0 < sumDistances dx dy tile_size ∧
    waterFlow (0 : α) 0 tile_size = (0, 0) :=
  ⟨le_max_right _ _, sumDistances_pos h, waterFlow_zero_zero tile_size⟩

/-- Witness for C9 at `dx = 3`, `dy = -4`, `tile_size = 2`. -/
theorem C9_denominator_positive_witness :
    (0 : ℚ) < 2 ∧
    ((2 : ℚ) ≤ sumDistances (3 : ℚ) (-4) 2 ∧ 0 < sumDistances (3 : ℚ) (-4) 2 ∧
      waterFlow (0 : ℚ) 0 2 = (0, 0)) :=
  ⟨by norm_num, C9_denominator_positive 3 (-4) 2 (by norm_num)⟩

/-- Helper: 3 is not a perfect square. -/
theorem notSquareThree : ¬ IsSquare (3 : ℕ) := by
  rintro ⟨r, hr⟩
  rcases Nat.lt_or_ge r 2 with h | h
  · interval_cases r <;> omega
  · have : 4 ≤ r * r := Nat.mul_le_mul h h
    omega

/-- C5: for every 2-dimensional list-form array whose row count is a perfect
square, with any attribute count and ordering, `list2matrix` followed by
`matrix2list` returns exactly the original array. -/
theorem C5_conversion_roundtrip {α : Type*} (a : NDArray α) (n c : ℕ)
    (hshape : a.shape = [n, c]) (hsq : IsSquare n) :
    (list2matrix a).bind matrix2list = Except.ok a := by
  obtain ⟨r, hr⟩ := hsq
  have hs : Nat.sqrt n * Nat.sqrt n = n := by rw [hr, Nat.sqrt_eq]
  have hq : ∀ p : ℕ, p / c * c + p % c = p := fun p => by
    rw [Nat.mul_comm]
    exact Nat.div_add_mod p c
  simp only [list2matrix, hshape, hs, if_pos]
  simp only [Except.bind, matrix2list]
  congr 1
  ext p
  · simp [hs, hshape]
  · simp only [stackLast, column, hq]

/-- Witness for C5: a 4×2 list-form array round-trips exactly. -/
theorem C5_conversion_roundtrip_witness :
    (list2matrix listFormExample).bind matrix2list = Except.ok listFormExample :=
  C5_conversion_roundtrip listFormExample 4 2 rfl ⟨2, rfl⟩

/-- C7: `list2matrix` fails with an error for every input that is not
2-dimensional and for every 2-dimensional input whose row count is not a
perfect square; `matrix2list` fails with an error for every input that does
not have exactly 3 dimensions. -/
theorem C7_shape_rejection {α : Type*} (a : NDArray α) :
    (a.shape.length ≠ 2 → ∃ e, list2matrix a = Except.error e) ∧
    (∀ n c, a.shape = [n, c] → ¬ IsSquare n → ∃ e, list2matrix a = Except.error e) ∧
    (a.shape.length ≠ 3 → ∃ e, matrix2list a = Except.error e) := by
  refine ⟨?_, ?_, ?_⟩
  · intro hlen
    rcases hsh : a.shape with _ | ⟨x, _ | ⟨y, rest⟩⟩
    · exact ⟨"Not in list form!", by simp [list2matrix, hsh]⟩
    · exact ⟨"Not in list form!", by simp [list2matrix, hsh]⟩
    · rcases rest with _ | ⟨z, rest2⟩
      · exact absurd (by simp [hsh]) hlen
      · exact ⟨"Not in list form!", by simp [list2matrix, hsh]⟩
  · intro n c hnc hns
    have hs : ¬ (Nat.sqrt n * Nat.sqrt n = n) := fun h => hns ⟨Nat.sqrt n, h.symm⟩
    exact ⟨"cannot reshape column into square matrix",
      by simp only [list2matrix, hnc, if_neg hs]⟩
  · intro hlen
    rcases hsh : a.shape with _ | ⟨x, _ | ⟨y, _ | ⟨z, rest⟩⟩⟩
    · exact ⟨"Not in matrix form!", by simp [matrix2list, hsh]⟩
    · exact ⟨"Not in matrix form!", by simp [matrix2list, hsh]⟩
    · exact ⟨"Not in matrix form!", by simp [matrix2list, hsh]⟩
    · rcases rest with _ | ⟨w, rest2⟩
      · exact absurd (by simp [hsh]) hlen
      · exact ⟨"Not in matrix form!", by simp [matrix2list, hsh]⟩

/-- Witness for C7: a 1-dimensional array and a 3-row list-form array are
rejected by `list2matrix`, and a 2-dimensional array is rejected by
`matrix2list`. -/
theorem C7_shape_rejection_witness :
    (∃ e, list2matrix oneDimExample = Except.error e) ∧
    (∃ e, list2matrix listFormNonSquare = Except.error e) ∧
    (∃ e, matrix2list listFormExample = Except.error e) :=
  ⟨(C7_shape_rejection oneDimExample).1 (by decide),
   (C7_shape_rejection listFormNonSquare).2.1 3 2 rfl notSquareThree,
   (C7_shape_rejection listFormExample).2.2 (by decide)⟩

/-- C6 counterexample: at water level `0` (any gradient, here `1`), the
velocity magnitude is `0`, so `water_flow_velocity` returns `0`, whose sign
is not the sign of the (nonzero) gradient.  The claim as stated quantifies
over every water level, so it fails here. -/
theorem C6_zero_water_level_counterexample :
    waterFlowVelocity 0 4 1 100 = 0 ∧
    sgn (waterFlowVelocity 0 4 1 100) ≠ sgn (1 : ℝ) := by
  have h : waterFlowVelocity 0 4 1 100 = 0 := by
    simp [waterFlowVelocity, cbrt, R, sgn]
  refine ⟨h, ?_⟩
  rw [h]
  norm_num [sgn]

/-- C6 (amended): for positive water level, positive tile area and positive
Manning coefficient, `water_flow_velocity` has the same sign as the gradient
whenever the gradient is nonzero, and a zero gradient always yields exactly
zero velocity. -/
theorem C6_sign_preservation (wl tsm g kst : ℝ)
    (hwl : 0 < wl) (htsm : 0 < tsm) (hkst : 0 < kst) :
    (g ≠ 0 → sgn (waterFlowVelocity wl tsm g kst) = sgn g) ∧
    waterFlowVelocity wl tsm 0 kst = 0 := by
  refine ⟨?_, waterFlowVelocity_zero_gradient wl tsm kst⟩
  intro hg
  have hR2 : 0 < R wl tsm ^ 2 := by
    have hR : 0 < R wl tsm := div_pos hwl (by positivity)
    positivity
  have hc : 0 < cbrt (R wl tsm ^ 2) := by
    unfold cbrt
    rw [sgn_of_pos hR2, one_mul]
    exact Real.rpow_pos_of_pos (abs_pos.mpr hR2.ne') _
  have hs : 0 < Real.sqrt |g| := Real.sqrt_pos.mpr (abs_pos.mpr hg)
  have hM : 0 < kst * cbrt (R wl tsm ^ 2) * Real.sqrt |g| := by positivity
  rcases lt_or_gt_of_ne hg with hneg | hpos
  · rw [waterFlowVelocity, sgn_of_neg hneg, neg_one_mul]
    exact sgn_of_neg (neg_lt_zero.mpr hM)
  · rw [waterFlowVelocity, sgn_of_pos hpos, one_mul]
    exact sgn_of_pos hM

/-- Witness for the amended C6 at `wl = 1`, `tsm = 1`, `g = 1`, `kst = 1`. -/
theorem C6_sign_preservation_witness :
    (1 : ℝ) ≠ 0 ∧ sgn (waterFlowVelocity 1 1 1 1) = sgn (1 : ℝ) :=
  ⟨one_ne_zero, (C6_sign_preservation 1 1 1 1 one_pos one_pos one_pos).1 one_ne_zero⟩

/-- Helper: the `runSimulation` loop with `n = 0` produces no snapshots. -/
theorem runSimulation_zero (t : ℕ) (rainfall timestep tile_size kst : ℝ)
    (gx gy sealing : Fin t → Fin t → ℝ) (wl : Fin t → Fin t → ℝ) :
    runSimulation t rainfall timestep tile_size kst gx gy sealing 0 wl = [] := rfl

/-- Helper: the `runSimulation` loop with `n + 1` iterations performs one
step and appends its snapshot before the remaining `n` iterations. -/
theorem runSimulation_succ (t : ℕ) (rainfall timestep tile_size kst : ℝ)
    (gx gy sealing : Fin t → Fin t → ℝ) (n : ℕ) (wl : Fin t → Fin t → ℝ) :
    runSimulation t rainfall timestep tile_size kst gx gy sealing (n + 1) wl =
      simulationStep t rainfall timestep tile_size kst wl gx gy sealing ::
        runSimulation t rainfall timestep tile_size kst gx gy sealing n
          (simulationStep t rainfall timestep tile_size kst wl gx gy sealing) := rfl

/-- Helper: the `i`-th snapshot of the loop is the `(i+1)`-fold iterate of
the per-timestep update applied to the starting water levels. -/
theorem runSimulation_eq_map_range (t : ℕ) (rainfall timestep tile_size kst : ℝ)
    (gx gy sealing : Fin t → Fin t → ℝ) (n : ℕ) (wl : Fin t → Fin t → ℝ) :
    runSimulation t rainfall timestep tile_size kst gx gy sealing n wl =
      (List.range n).map fun i =>
        (fun w => simulationStep t rainfall timestep tile_size kst w gx gy sealing)^[i + 1] wl := by
  induction n generalizing wl with
  | zero => rw [runSimulation_zero, List.range_zero, List.map_nil]
  | succ n ih =>
    rw [runSimulation_succ, ih, List.range_succ_eq_map, List.map_cons, List.map_map]
    congr 1

/-- C8: `simulate` runs exactly the caller-specified number of iterations —
no convergence check, no early termination — and emits one water-level
snapshot per iteration: the `i`-th element of the output sequence is the
grid after `i + 1` applications of the per-timestep update. -/
theorem C8_fixed_iteration_snapshots (t : ℕ) (rainfall timestep tile_size kst : ℝ)
    (gx gy sealing : Fin t → Fin t → ℝ) (iterations : ℕ) :
    (simulate t rainfall timestep tile_size kst gx gy sealing iterations).length = iterations ∧
    simulate t rainfall timestep tile_size kst gx gy sealing iterations =
      (List.range iterations).map fun i =>
        (fun w => simulationStep t rainfall timestep tile_size kst w gx gy sealing)^[i + 1]
          fun _ _ => 0 := by
  have h := runSimulation_eq_map_range t rainfall timestep tile_size kst gx gy sealing iterations
    fun _ _ => 0
  exact ⟨by rw [simulate, h, List.length_map, List.length_range], by rw [simulate, h]⟩

/-- C3: on a 2×2 grid with zero initial water, zero sealing and zero
gradients, with `rainfall = 1`, `timestep_size = 1`, `tile_size = 2`
(so `tile_square_meter = 4`) and one iteration, `simulate` yields water level
`2.64` in every cell: rainfall raises each cell to 4 liters, infiltration
multiplies by `1 - 0.34 = 0.66`, and zero gradients give zero flow, so all
water is retained. -/
theorem C3_end_to_end_scenario :
    simulate 2 1 1 2 100 (fun _ _ => 0) (fun _ _ => 0) (fun _ _ => 0) 1
      = [fun _ _ => (2.64 : ℝ)] := by
  simp only [simulate, runSimulation]
  congr 1
  funext i j
  simp only [simulationStep]
  rw [updatedWaterLevel_of_no_flow]
  · norm_num [waterInfiltration]
  · intro i j
    simp [cellFlow_zero_gradients]
  · intro i j
    simp [cellFlow_zero_gradients]

/-- C10: one full simulation iteration — rainfall with a non-negative rate,
infiltration, flow computation, grid update — keeps every water level
non-negative, for any grid with non-negative water levels and sealing values
in `[0, 100]` and any positive tile size: the infiltration factor is
non-negative on this domain, the four directional inflows are absolute
values, and the retained fraction `1 - (|flow_x| + |flow_y|)` is non-negative
by the flow-fraction bound. -/
theorem C10_water_level_nonneg (t : ℕ) (rainfall timestep tile_size kst : ℝ)
    (wl gx gy sealing : Fin t → Fin t → ℝ)
    (hts : 0 < tile_size) (hrain : 0 ≤ rainfall)
    (hwl : ∀ i j, 0 ≤ wl i j)
    (hseal : ∀ i j, 0 ≤ sealing i j ∧ sealing i j ≤ 100) :
    ∀ i j, 0 ≤ simulationStep t rainfall timestep tile_size kst wl gx gy sealing i j := by
  intro i j
  have hwl2 : ∀ i j : Fin t,
      0 ≤ waterInfiltration (wl i j + rainfall * tile_size ^ 2) (sealing i j) :=
    fun i j =>
      waterInfiltration_nonneg
        (add_nonneg (hwl i j) (mul_nonneg hrain (by positivity))) (hseal i j).1
  have hb : ∀ i j : Fin t,
      |(cellFlow (waterInfiltration (wl i j + rainfall * tile_size ^ 2) (sealing i j))
          (gx i j) (gy i j) tile_size timestep kst).1|
        + |(cellFlow (waterInfiltration (wl i j + rainfall * tile_size ^ 2) (sealing i j))
          (gx i j) (gy i j) tile_size timestep kst).2| ≤ 1 := by
    intro i j
    unfold cellFlow
    exact waterFlow_abs_add_le_one _ _ _ hts
  exact updatedWaterLevel_nonneg hwl2 hb i j

/-- Witness for C10 on a 1×1 grid of zeros with `tile_size = 1`. -/
theorem C10_water_level_nonneg_witness :
    0 ≤ simulationStep 1 0 0 1 0 (fun _ _ => 0) (fun _ _ => 0) (fun _ _ => 0)
      (fun _ _ => 0) 0 0 :=
  C10_water_level_nonneg 1 0 0 1 0 (fun _ _ => 0) (fun _ _ => 0) (fun _ _ => 0)
    (fun _ _ => 0) one_pos le_rfl (fun _ _ => le_rfl)
    (fun _ _ => ⟨le_rfl, by norm_num⟩) 0 0

end ClaimTheorems

end UrbanWater
